import Mathlib

/-!
Verification model of `src/pcr_watch.py` (pcrjjc2-workwx).

The file embeds, directly from the source:
* the `WorkWx` message coalescer (`WorkWx.send_message`, lines 44-80),
* the CAPTCHA verification solver loop (`PcrWatcher._verify_captcha`,
  lines 111-190), and
* the polling body of the watch loop (`PcrWatcher.watch`, lines 216-345).

External effects are made explicit: the solver's status-poll responses
become an environment `Nat → PollResp`, the per-user profile-query
outcomes become an environment `Nat → QueryResult`, `datetime.now()`
becomes a `now : String` argument, sleeps are accumulated as a number of
seconds, and every `send_message` call is recorded as an event together
with its `delay` flag.
-/

/-- Token returned by a successful CAPTCHA verification: the triple
`(challenge, gt_user_id, validate)` built on lines 184-188 of
`pcr_watch.py`. -/
structure Token where
  challenge : String
  gtUserId : String
  validate : String
  deriving DecidableEq, Repr

/-- State of the `WorkWx` webhook wrapper (lines 44-80): `queue` is the
asyncio queue of delayed, already stamped messages; `posts` is the list
of `content` strings delivered to the webhook so far, in order. -/
structure WorkWxState where
  queue : List String
  posts : List String
  deriving DecidableEq, Repr

/-- Line 59 of `pcr_watch.py`: every message is rewritten to
`f"{datetime.now()}\n【PCR】{message}"` before being queued or sent.
`now` stands for the `datetime.now()` string read at the call. -/
def stamp (now message : String) : String :=
  now ++ "\n【PCR】" ++ message

/-- `WorkWx.send_message` (lines 54-80). A delayed message is stamped and
only appended to the queue. A non-delayed message drains the queue in
FIFO order, appends itself last, and delivers the blank-line join of the
drained messages as one outbound post; the queue is empty afterwards. -/
def send_message (now message : String) (delay : Bool) (s : WorkWxState) : WorkWxState :=
  let m := stamp now message
  if delay then
    { s with queue := s.queue ++ [m] }
  else
    { queue := [], posts := s.posts ++ [String.intercalate "\n\n" (s.queue ++ [m])] }

/-- One status-poll response of the solver service, as branched on by
lines 146-188 of `pcr_watch.py`: a truthy `queue_num`, `info` equal to
`"fail"` or `"url invalid"`, `info` equal to `"in running"`, `info` a
dict containing a `validate` key, or any other response (which matches
none of the branches and simply loops again). -/
inductive PollResp where
  | queueNum (q : Nat)
  | infoFail
  | infoUrlInvalid
  | infoRunning
  | infoValidate (challenge gtUserId validate : String)
  | other
  deriving DecidableEq, Repr

/-- Line 152 of `pcr_watch.py`: `query_waittime = min(query_queue, 3) * 10`. -/
def waitFor (q : Nat) : Nat := min q 3 * 10

/-- Line 130: the per-attempt progress message
`f"PCR登录验证：自动过码第{verify_count}次尝试"`. -/
def attemptMsg (n : Nat) : String :=
  "PCR登录验证：自动过码第" ++ toString n ++ "次尝试"

/-- Line 158: the queue-position message
`f"当前位置：{query_queue}，等待{query_waittime}秒"`. -/
def posMsg (q : Nat) : String :=
  "当前位置：" ++ toString q ++ "，等待" ++ toString (waitFor q) ++ "秒"

/-- Observable state threaded through `_verify_captcha`: the number of
status polls made so far across all attempts, every `send_message` call
as a `(message, delay)` pair in order, and the total seconds slept. -/
structure VState where
  polls : Nat
  events : List (String × Bool)
  waited : Nat
  deriving DecidableEq, Repr

/-- How the inner poll loop of `_verify_captcha` ended: an early `return`
with a token, a `break` on `"fail"` / `"url invalid"`, or the tenth poll
passing without a decision. -/
inductive InnerResult where
  | success (t : Token)
  | aborted
  | exhausted
  deriving DecidableEq, Repr

/-- The inner `while query_count < 10` polling loop of `_verify_captcha`
(lines 142-188); `fuel` is `10 - query_count`, and `env n` is the
response to the `(n+1)`-th status poll of the whole run. -/
def pollLoop (env : Nat → PollResp) : Nat → VState → InnerResult × VState
  | 0, s => (.exhausted, s)
  | fuel + 1, s =>
    match env s.polls with
    | .queueNum q =>
      pollLoop env fuel
        { polls := s.polls + 1
          events := s.events ++
            [("登录验证：自动过码队列中", true), (posMsg q, false)]
          waited := s.waited + waitFor q }
    | .infoFail =>
      (.aborted, { s with polls := s.polls + 1,
                          events := s.events ++ [("登录验证：自动过码失败", false)] })
    | .infoUrlInvalid =>
      (.aborted, { s with polls := s.polls + 1,
                          events := s.events ++ [("登录验证：自动过码失败", false)] })
    | .infoRunning =>
      pollLoop env fuel
        { polls := s.polls + 1
          events := s.events ++ [("登录验证：自动过码运行中", true)]
          waited := s.waited + 5 }
    | .infoValidate c g v =>
      (.success ⟨c, g, v⟩,
       { s with polls := s.polls + 1,
                events := s.events ++ [("登录验证：自动过码成功", true)] })
    | .other =>
      pollLoop env fuel { s with polls := s.polls + 1 }

/-- The outer `while verify_count < 3` attempt loop of `_verify_captcha`
(lines 126-190); `fuel` is `3 - verify_count` and `count` is the current
`verify_count`. On exhaustion the `while`/`else` clause emits the
timeout notification and the function returns `None` (modelled as
`none`); the submission request of each attempt has no observable effect
beyond enabling the subsequent polls. -/
def verifyLoop (env : Nat → PollResp) : Nat → Nat → VState → Option Token × VState
  | 0, _, s =>
    (none, { s with events := s.events ++ [("登录验证：自动过码超时", false)] })
  | fuel + 1, count, s =>
    match pollLoop env 10
        { s with events := s.events ++ [(attemptMsg (count + 1), true)] } with
    | (.success t, s2) => (some t, s2)
    | (.aborted, s2) => verifyLoop env fuel (count + 1) s2
    | (.exhausted, s2) => verifyLoop env fuel (count + 1) s2

/-- `PcrWatcher._verify_captcha` (lines 111-190) as a function of the
poll-response environment. -/
def verifyCaptcha (env : Nat → PollResp) : Option Token × VState :=
  verifyLoop env 3 0 ⟨0, [], 0⟩

/-- Whether a poll response is the success branch (an `info` dict
containing `validate`). -/
def isValidate : PollResp → Bool
  | .infoValidate _ _ _ => true
  | _ => false

/-- Outcome of one profile query for one user (lines 250-326): either
the relevant `user_info` fields, or an exception carrying its text. -/
inductive QueryResult where
  | ok (userName : String) (jjc pjjc : Int)
  | err (msg : String)
  deriving DecidableEq, Repr

/-- Observable events of the watch cycle: a `send_message` call with its
`delay` flag, or a write of a user entry in `pcr_cache` (line 297). -/
inductive WEvent where
  | send (msg : String) (delay : Bool)
  | store (uid : Nat) (jjc pjjc : Int)
  deriving DecidableEq, Repr

/-- State threaded through the polling loop of `PcrWatcher.watch`:
`cache` is the insertion-ordered `pcr_cache`, `qec` is
`user_query_error_count`, `nec` is `user_notify_error_count`, `changed`
is `user_rank_has_changed`, and `trace` records the events in order. -/
structure LoopState where
  cache : List (Nat × Int × Int)
  qec : Nat
  nec : Nat
  changed : Bool
  trace : List WEvent
  deriving DecidableEq, Repr

/-- Whether the per-user `for` loop continues with the next user or was
left by `break`. -/
inductive Ctl where
  | next
  | stop
  deriving DecidableEq, Repr

/-- Line 311 of `pcr_watch.py`: the substring of the exception text that
marks a forced return to the title screen. -/
def titleMark : String := "回到标题界面"

/-- Contiguous-subsequence test on character lists, modelling the Python
`in` substring test of line 311. -/
def containsSeq (p : List Char) : List Char → Bool
  | [] => p.isEmpty
  | c :: rest => p.isPrefixOf (c :: rest) || containsSeq p rest

/-- Whether the exception text contains the title-screen marker. -/
def hasTitleMark (m : String) : Bool :=
  containsSeq titleMark.toList m.toList

/-- One board's block of the change message (lines 274-294): the board
name, the direction symbol chosen from the sign of
`stored rank - queried rank`, the absolute delta, and the transition. -/
def diffPart (board : String) (oldRank newRank : Int) : String :=
  let d := oldRank - newRank
  let sym := if d < 0 then "↓" else "↑"
  "\n" ++ board ++ "（ " ++ sym ++ " " ++ toString d.natAbs ++ " ）：" ++
    toString oldRank ++ " ➜ " ++ toString newRank

/-- The full change message for one user (lines 272-294), built from the
stored ranks `(uj, up)` and the queried ranks `(qj, qp)`. -/
def changeMessage (name : String) (uj up qj qp : Int) : String :=
  let base := "排名变动：" ++ name
  let base1 := if uj = qj then base else base ++ diffPart "普通竞技场" uj qj
  if up = qp then base1 else base1 ++ diffPart "公主竞技场" up qp

/-- `self.pcr_cache[user_id] = (jjc, pjjc)` (lines 296-300): rewrite the
entry of `uid`. -/
def updateCache (cache : List (Nat × Int × Int)) (uid : Nat) (j p : Int) :
    List (Nat × Int × Int) :=
  cache.map fun e => if e.1 = uid then (uid, j, p) else e

/-- Read the stored rank pair of `uid` from the cache (first entry with
that identifier, matching the dict lookup). -/
def lookupCache : List (Nat × Int × Int) → Nat → Option (Int × Int)
  | [], _ => none
  | e :: rest, uid => if e.1 = uid then some (e.2.1, e.2.2) else lookupCache rest uid

/-- Processing of one watched user inside one polling cycle
(lines 250-326): on a successful query both error counters are reset,
equal ranks fall through with `continue`, a change builds the diff
message from the stored values, stores the new ranks, and then enqueues
the message as delayed; on an exception the title-screen text forces
`nec := 3` and `break`, otherwise the shared query-error counter is
incremented, skipping the user below the threshold and emitting the
failure notification, resetting `qec` and bumping `nec`, at the
threshold. -/
def processUser (res : QueryResult) (uid : Nat) (uj up : Int) (s : LoopState) :
    LoopState × Ctl :=
  match res with
  | .ok name qj qp =>
    let s0 := { s with qec := 0, nec := 0 }
    if uj = qj ∧ up = qp then (s0, .next)
    else
      ({ s0 with changed := true
                 cache := updateCache s0.cache uid qj qp
                 trace := s0.trace ++
                   [.store uid qj qp, .send (changeMessage name uj up qj qp) true] },
       .next)
  | .err m =>
    if hasTitleMark m then ({ s with nec := 3 }, .stop)
    else if s.qec + 1 < 3 then ({ s with qec := s.qec + 1 }, .next)
    else
      ({ s with qec := 0
                nec := s.nec + 1
                trace := s.trace ++ [.send ("用户信息查询失败：" ++ m) false] },
       .stop)

/-- The `for` loop over `pcr_cache.items()` within one polling cycle
(lines 246-326); `env uid` is the outcome of querying `uid`. Returns the
state after the loop together with whether the loop was broken. -/
def cycleLoop (env : Nat → QueryResult) :
    List (Nat × Int × Int) → LoopState → LoopState × Bool
  | [], s => (s, false)
  | (uid, uj, up) :: rest, s =>
    match processUser (env uid) uid uj up s with
    | (s1, .next) => cycleLoop env rest s1
    | (s1, .stop) => (s1, true)

/-- One polling cycle of `PcrWatcher.watch` (lines 242-330): reset the
change flag, run the per-user loop over the current cache, and emit the
immediate summary notification when any rank changed. -/
def runCycle (env : Nat → QueryResult) (s : LoopState) : LoopState :=
  let s0 : LoopState := { s with changed := false }
  let s1 := (cycleLoop env s0.cache s0).1
  if s1.changed then
    { s1 with trace := s1.trace ++ [.send "监听用户存在排名变动" false] }
  else s1

/-- The polling `while` condition of lines 238-241: the stop event is
unset and `user_notify_error_count < 3`. -/
def watchCondition (stopSet : Bool) (nec : Nat) : Prop :=
  stopSet = false ∧ nec < 3

/-- Concrete solver environment: every status poll reports failure. -/
def envAllFail : Nat → PollResp := fun _ => .infoFail

/-- Concrete solver environment: the first poll reports queue position 1,
every later poll is validated. -/
def envQueuePos : Nat → PollResp :=
  fun n => if n = 0 then .queueNum 1 else .infoValidate "c" "g" "v"

/-- Concrete solver environment of the spec scenario: two polls at queue
position 2, one in-running poll, then validated with challenge `"c"`,
gt_user_id `"g"`, validate `"v"`. -/
def envScenario : Nat → PollResp :=
  fun n =>
    if n = 0 ∨ n = 1 then .queueNum 2
    else if n = 2 then .infoRunning
    else .infoValidate "c" "g" "v"

/-- Concrete query environment: every query raises a plain error. -/
def envErr : Nat → QueryResult := fun _ => .err "boom"

/-- Concrete watch state with a single user whose stored ranks are
`(10, 20)`. -/
def sOne : LoopState := ⟨[(1, 10, 20)], 0, 0, false, []⟩

/-- Concrete watch state with three users, all at stored ranks `(0, 0)`. -/
def sThree : LoopState := ⟨[(1, 0, 0), (2, 0, 0), (3, 0, 0)], 0, 0, false, []⟩

/-- Concrete query environment: every query succeeds with ranks
`(10, 20)`, the stored ranks of `sOne`. -/
def envOkSame : Nat → QueryResult := fun _ => .ok "n" 10 20

/-- A run in which no status poll ever carries a `validate` field never
lets the inner poll loop succeed. -/
lemma pollLoop_no_validate (env : Nat → PollResp)
    (h : ∀ n, isValidate (env n) = false) :
    ∀ fuel s, (pollLoop env fuel s).1 = InnerResult.aborted ∨
      (pollLoop env fuel s).1 = InnerResult.exhausted := by
  intro fuel
  induction fuel with
  | zero => intro s; right; rfl
  | succ n ih =>
    intro s
    have hv := h s.polls
    cases henv : env s.polls with
    | queueNum q => simpa [pollLoop, henv] using ih _
    | infoFail => left; simp [pollLoop, henv]
    | infoUrlInvalid => left; simp [pollLoop, henv]
    | infoRunning => simpa [pollLoop, henv] using ih _
    | infoValidate c g v => rw [henv] at hv; simp [isValidate] at hv
    | other => simpa [pollLoop, henv] using ih _

/-- A run in which no status poll ever carries a `validate` field makes
the outer attempt loop return `none` with the timeout notification as
its final emitted event. -/
lemma verifyLoop_no_validate (env : Nat → PollResp)
    (h : ∀ n, isValidate (env n) = false) :
    ∀ fuel count s, (verifyLoop env fuel count s).1 = none ∧
      ∃ l, (verifyLoop env fuel count s).2.events =
        l ++ [("登录验证：自动过码超时", false)] := by
  intro fuel
  induction fuel with
  | zero => intro count s; exact ⟨rfl, ⟨s.events, rfl⟩⟩
  | succ n ih =>
    intro count s
    have hp := pollLoop_no_validate env h 10
      { s with events := s.events ++ [(attemptMsg (count + 1), true)] }
    rw [verifyLoop]
    rcases hres : pollLoop env 10
        { s with events := s.events ++ [(attemptMsg (count + 1), true)] } with ⟨r, s2⟩
    rw [hres] at hp
    cases r with
    | success t => simp at hp
    | aborted => exact ih (count + 1) s2
    | exhausted => exact ih (count + 1) s2

/-- C1 (amended): if no status poll of the run ever returns a `validate`
field, `_verify_captcha` emits the timeout notification as its last
notification and returns `None` (modelled as `none`) — a normal return
value, since the function raises no error. -/
theorem c1_timeout_returns_none (env : Nat → PollResp)
    (h : ∀ n, isValidate (env n) = false) :
    (verifyCaptcha env).1 = none ∧
      ∃ l, (verifyCaptcha env).2.events = l ++ [("登录验证：自动过码超时", false)] :=
  verifyLoop_no_validate env h 3 0 ⟨0, [], 0⟩

/-- C1 witness: the all-failures environment instantiates the timeout
theorem. -/
theorem c1_witness :
    (verifyCaptcha envAllFail).1 = none ∧
      ∃ l, (verifyCaptcha envAllFail).2.events =
        l ++ [("登录验证：自动过码超时", false)] :=
  c1_timeout_returns_none envAllFail (fun _ => rfl)

/-- C1 counterexample: on the concrete run whose every poll reports
failure, `_verify_captcha` terminates with the ordinary value `none`
(Python `None`; the function body contains no `raise`), refuting the
claim that such a run ends in a `VerificationTimeout` error rather than
a normal return value. The timeout notification is emitted, but as the
last of the recorded `send_message` events of an ordinarily returning
call. -/
theorem c1_counterexample :
    verifyCaptcha envAllFail =
      (none,
       { polls := 3
         events := [(attemptMsg 1, true), ("登录验证：自动过码失败", false),
                    (attemptMsg 2, true), ("登录验证：自动过码失败", false),
                    (attemptMsg 3, true), ("登录验证：自动过码失败", false),
                    ("登录验证：自动过码超时", false)]
         waited := 0 }) := rfl

/-- C8 counterexample: in the spec scenario (two polls at queue position
2, one in-running poll, then success) the solver sleeps 20 + 20 + 5 = 45
seconds, not the claimed 2 × 10 + 5 = 25 seconds, because a queue
position of 2 waits `min(2, 3) * 10 = 20` seconds per poll. -/
theorem c8_counterexample :
    (verifyCaptcha envScenario).2.waited = 45 ∧
      ¬ (verifyCaptcha envScenario).2.waited = 2 * 10 + 5 := by
  exact ⟨rfl, by decide⟩

/-- C8 (amended): in the run where the first two status polls return
`queue_num = 2`, the third returns `info = "in running"` and the fourth
returns a validated info object, the solver returns the token
`(challenge, gt_user_id, validate) = ("c", "g", "v")` after exactly 4
polls, having slept 2 × 20 + 5 = 45 seconds. -/
theorem c8_scenario :
    verifyCaptcha envScenario =
      (some ⟨"c", "g", "v"⟩,
       { polls := 4
         events := [(attemptMsg 1, true),
                    ("登录验证：自动过码队列中", true), (posMsg 2, false),
                    ("登录验证：自动过码队列中", true), (posMsg 2, false),
                    ("登录验证：自动过码运行中", true),
                    ("登录验证：自动过码成功", true)]
         waited := 2 * 20 + 5 }) := rfl

/-- C7 counterexample: on the concrete run whose first status poll
reports queue position 1, the notification carrying the queue position
(`posMsg 1`, i.e. `当前位置：1，等待10秒`) is emitted with
`delay = false` — an immediate, queue-flushing delivery — and no
low-priority (`delay = true`) event carries it, refuting the claim that
the queue-position notification is low-priority. The low-priority event
emitted in this branch is the positionless `登录验证：自动过码队列中`. -/
theorem c7_counterexample :
    (verifyCaptcha envQueuePos).2.events =
      [(attemptMsg 1, true), ("登录验证：自动过码队列中", true),
       (posMsg 1, false), ("登录验证：自动过码成功", true)] ∧
    (posMsg 1, false) ∈ (verifyCaptcha envQueuePos).2.events ∧
    (posMsg 1, true) ∉ (verifyCaptcha envQueuePos).2.events := by
  refine ⟨rfl, by decide, by decide⟩

/-- C7 (amended): a status poll carrying queue position `q` makes the
solver sleep exactly `min(q, 3) * 10` seconds before the next poll,
emit a low-priority in-queue notification and an immediately delivered
queue-position notification, and continue polling; for
`q ∈ {1, 2, 3, 5, 100}` the wait is `{10, 20, 30, 30, 30}` seconds. -/
theorem c7_queue_wait (env : Nat → PollResp) (fuel : Nat) (s : VState) (q : Nat)
    (h : env s.polls = PollResp.queueNum q) :
    pollLoop env (fuel + 1) s =
      pollLoop env fuel
        { polls := s.polls + 1
          events := s.events ++ [("登录验证：自动过码队列中", true), (posMsg q, false)]
          waited := s.waited + min q 3 * 10 } ∧
    waitFor q = min q 3 * 10 ∧
    waitFor 1 = 10 ∧ waitFor 2 = 20 ∧ waitFor 3 = 30 ∧
    waitFor 5 = 30 ∧ waitFor 100 = 30 := by
  refine ⟨?_, rfl, rfl, rfl, rfl, rfl, rfl⟩
  rw [pollLoop, h]
  rfl

/-- C7 witness: the queue-position environment instantiates the wait
theorem at `q = 1`. -/
theorem c7_witness :
    envQueuePos 0 = PollResp.queueNum 1 ∧
    pollLoop envQueuePos 10 ⟨0, [], 0⟩ =
      pollLoop envQueuePos 9
        { polls := 1
          events := [("登录验证：自动过码队列中", true), (posMsg 1, false)]
          waited := 10 } :=
  ⟨rfl, (c7_queue_wait envQueuePos 9 ⟨0, [], 0⟩ 1 rfl).1⟩

/-- C6 (confirmed): with an empty pending queue, enqueuing low-priority
messages `m1` then `m2` delivers nothing, and a subsequent high-priority
message `m3` produces exactly one outbound delivery whose content is the
blank-line join of the stamped `m1`, `m2`, `m3` in FIFO order with the
triggering message last, leaving the queue empty; within that content
`m1`, `m2`, `m3` occur in order, each separator containing a blank line. -/
theorem c6_coalesce (n1 n2 n3 m1 m2 m3 : String) (posts0 : List String) :
    (send_message n1 m1 true ⟨[], posts0⟩).posts = posts0 ∧
    (send_message n2 m2 true (send_message n1 m1 true ⟨[], posts0⟩)).posts = posts0 ∧
    send_message n3 m3 false
        (send_message n2 m2 true (send_message n1 m1 true ⟨[], posts0⟩)) =
      ⟨[], posts0 ++ [stamp n1 m1 ++ "\n\n" ++ stamp n2 m2 ++ "\n\n" ++ stamp n3 m3]⟩ ∧
    stamp n1 m1 ++ "\n\n" ++ stamp n2 m2 ++ "\n\n" ++ stamp n3 m3 =
      (n1 ++ "\n【PCR】") ++ m1 ++ (("\n\n" ++ n2 ++ "\n【PCR】") ++ m2 ++
        (("\n\n" ++ n3 ++ "\n【PCR】") ++ m3)) := by
  refine ⟨rfl, rfl, rfl, ?_⟩
  simp only [stamp, String.append_assoc]

/-- C10 (confirmed): every message handed to `send_message` is first
stamped with the current timestamp on its own line followed by the
`【PCR】` marker opening the message line; a delayed call only appends
the stamped message to the queue, and an immediate call posts the
blank-line join of the stamped queued messages with the stamped trigger
last, emptying the queue. -/
theorem c10_stamped_join (now msg : String) (s : WorkWxState) :
    (send_message now msg true s).queue = s.queue ++ [stamp now msg] ∧
    (send_message now msg true s).posts = s.posts ∧
    (send_message now msg false s).posts =
      s.posts ++ [String.intercalate "\n\n" (s.queue ++ [stamp now msg])] ∧
    (send_message now msg false s).queue = [] ∧
    stamp now msg = now ++ "\n" ++ ("【PCR】" ++ msg) := by
  refine ⟨rfl, rfl, rfl, rfl, ?_⟩
  have hsplit : ("\n【PCR】" : String) = "\n" ++ "【PCR】" := rfl
  simp only [stamp, hsplit, String.append_assoc]

/-- C3 counterexample: with three watched users whose queries all fail
for the first time in the same cycle, the first user's failure leaves the
counter at 1, the second user's single failure raises it to 2, and the
third user's single failure reaches the threshold 3 — emitting the
failure notification and bumping `nec` — although no user failed three
times. The failures of users 1 and 2 thus contribute to the count under
which user 3 is judged, refuting the per-user reading. -/
theorem c3_counterexample :
    (cycleLoop envErr [(1, 0, 0)] sThree).1.qec = 1 ∧
    (cycleLoop envErr [(1, 0, 0), (2, 0, 0)] sThree).1.qec = 2 ∧
    runCycle envErr sThree =
      { cache := [(1, 0, 0), (2, 0, 0), (3, 0, 0)], qec := 0, nec := 1,
        changed := false,
        trace := [WEvent.send "用户信息查询失败：boom" false] } :=
  ⟨rfl, rfl, rfl⟩

/-- C3 (amended): `user_query_error_count` is a single counter shared
across users within one polling session — a failure of one user
increments the same counter a different user's failure then builds on —
while `user_notify_error_count` is likewise a single shared counter,
untouched by sub-threshold failures. -/
theorem c3_shared_error_counter
    (uid1 uid2 : Nat) (uj1 up1 uj2 up2 : Int) (m1 m2 : String) (s : LoopState)
    (h1 : hasTitleMark m1 = false) (h2 : hasTitleMark m2 = false)
    (h0 : s.qec = 0) :
    processUser (QueryResult.err m1) uid1 uj1 up1 s = ({ s with qec := 1 }, Ctl.next) ∧
    processUser (QueryResult.err m2) uid2 uj2 up2 { s with qec := 1 } =
      ({ s with qec := 2 }, Ctl.next) := by
  constructor
  · simp [processUser, h1, h0]
  · simp [processUser, h2]

/-- C3 witness: two distinct users failing once each drive the shared
counter from 0 to 2. -/
theorem c3_witness :
    processUser (QueryResult.err "boom") 1 0 0 sThree =
      ({ sThree with qec := 1 }, Ctl.next) ∧
    processUser (QueryResult.err "boom") 2 0 0 { sThree with qec := 1 } =
      ({ sThree with qec := 2 }, Ctl.next) :=
  c3_shared_error_counter 1 2 0 0 0 0 "boom" "boom" sThree rfl rfl rfl

/-- C4 (confirmed): starting from zeroed counters, three consecutive
query failures with no intervening successful query leave the first two
skipped with no notification (`Ctl.next`, unchanged trace), and the
third emits exactly one failure notification, resets
`user_query_error_count` to 0, increments `user_notify_error_count` by
exactly 1 and breaks the per-user loop (`Ctl.stop`); the polling
condition still holds afterwards, so only the current cycle is cut
short. -/
theorem c4_three_consecutive_failures
    (s : LoopState) (u1 u2 u3 : Nat) (a1 b1 a2 b2 a3 b3 : Int) (m1 m2 m3 : String)
    (hq : s.qec = 0) (hn : s.nec = 0)
    (t1 : hasTitleMark m1 = false) (t2 : hasTitleMark m2 = false)
    (t3 : hasTitleMark m3 = false) :
    processUser (QueryResult.err m1) u1 a1 b1 s = ({ s with qec := 1 }, Ctl.next) ∧
    processUser (QueryResult.err m2) u2 a2 b2 { s with qec := 1 } =
      ({ s with qec := 2 }, Ctl.next) ∧
    processUser (QueryResult.err m3) u3 a3 b3 { s with qec := 2 } =
      ({ s with qec := 0
                nec := 1
                trace := s.trace ++ [WEvent.send ("用户信息查询失败：" ++ m3) false] },
       Ctl.stop) ∧
    watchCondition false
      (processUser (QueryResult.err m3) u3 a3 b3 { s with qec := 2 }).1.nec := by
  have h3 : processUser (QueryResult.err m3) u3 a3 b3 { s with qec := 2 } =
      ({ s with qec := 0
                nec := 1
                trace := s.trace ++ [WEvent.send ("用户信息查询失败：" ++ m3) false] },
       Ctl.stop) := by
    simp [processUser, t3, hn]
  refine ⟨by simp [processUser, t1, hq], by simp [processUser, t2], h3, ?_⟩
  rw [h3]
  exact ⟨rfl, by norm_num⟩

/-- C4 witness: the single-user state instantiates the three-failure
escalation theorem. -/
theorem c4_witness :
    processUser (QueryResult.err "boom") 1 10 20 sOne =
      ({ sOne with qec := 1 }, Ctl.next) ∧
    processUser (QueryResult.err "boom") 1 10 20 { sOne with qec := 1 } =
      ({ sOne with qec := 2 }, Ctl.next) ∧
    processUser (QueryResult.err "boom") 1 10 20 { sOne with qec := 2 } =
      ({ sOne with qec := 0
                   nec := 1
                   trace := [WEvent.send ("用户信息查询失败：" ++ "boom") false] },
       Ctl.stop) ∧
    watchCondition false
      (processUser (QueryResult.err "boom") 1 10 20 { sOne with qec := 2 }).1.nec :=
  c4_three_consecutive_failures sOne 1 1 1 10 20 10 20 10 20 "boom" "boom" "boom"
    rfl rfl rfl rfl rfl

/-- C5 (confirmed): a query exception whose text contains the
title-screen marker immediately sets `user_notify_error_count` to 3 —
whatever its prior value — and breaks the per-user loop, after which the
polling while-condition fails. -/
theorem c5_title_forces_relogin
    (s : LoopState) (uid : Nat) (uj up : Int) (m : String) (stopSet : Bool)
    (h : hasTitleMark m = true) :
    processUser (QueryResult.err m) uid uj up s = ({ s with nec := 3 }, Ctl.stop) ∧
    ¬ watchCondition stopSet (processUser (QueryResult.err m) uid uj up s).1.nec := by
  have h1 : processUser (QueryResult.err m) uid uj up s =
      ({ s with nec := 3 }, Ctl.stop) := by
    simp [processUser, h]
  refine ⟨h1, ?_⟩
  rw [h1]
  rintro ⟨-, h3⟩
  exact absurd h3 (by norm_num)

/-- C5 witness: a concrete title-screen exception text instantiates the
forced-relogin theorem. -/
theorem c5_witness :
    hasTitleMark "错误：回到标题界面，请重新登录" = true ∧
    processUser (QueryResult.err "错误：回到标题界面，请重新登录") 1 10 20 sOne =
      ({ sOne with nec := 3 }, Ctl.stop) :=
  ⟨rfl, (c5_title_forces_relogin sOne 1 10 20 "错误：回到标题界面，请重新登录" false rfl).1⟩

/-- When every queried user reports exactly its stored ranks, the
per-user loop completes without break and changes neither the trace nor
the cache nor the change flag. -/
lemma cycleLoop_all_unchanged (env : Nat → QueryResult) (nameOf : Nat → String) :
    ∀ l s, (∀ e ∈ l, env e.1 = QueryResult.ok (nameOf e.1) e.2.1 e.2.2) →
      (cycleLoop env l s).1.trace = s.trace ∧
      (cycleLoop env l s).1.cache = s.cache ∧
      (cycleLoop env l s).1.changed = s.changed ∧
      (cycleLoop env l s).2 = false := by
  intro l
  induction l with
  | nil => intro s _; exact ⟨rfl, rfl, rfl, rfl⟩
  | cons e rest ih =>
    intro s h
    rcases e with ⟨uid, uj, up⟩
    have he : env uid = QueryResult.ok (nameOf uid) uj up :=
      h _ (List.mem_cons_self _ _)
    simp only [cycleLoop, he, processUser]
    rw [if_pos ⟨trivial, trivial⟩]
    exact ih _ (fun e hm => h e (List.mem_cons_of_mem _ hm))

/-- C9 (confirmed): a user whose queried ranks both equal the stored
ranks falls through with `continue` — no notification is emitted for it
and the cache is untouched (only the two error counters are reset, as on
every successful query); consequently a whole cycle in which every user
reports its stored ranks leaves the trace and the cache unchanged. -/
theorem c9_no_change_no_effect :
    (∀ name uid uj up s,
      processUser (QueryResult.ok name uj up) uid uj up s =
        ({ s with qec := 0, nec := 0 }, Ctl.next)) ∧
    (∀ (env : Nat → QueryResult) (nameOf : Nat → String) (s : LoopState),
      (∀ e ∈ s.cache, env e.1 = QueryResult.ok (nameOf e.1) e.2.1 e.2.2) →
      (runCycle env s).trace = s.trace ∧ (runCycle env s).cache = s.cache) := by
  constructor
  · intro name uid uj up s
    simp only [processUser]
    rw [if_pos ⟨trivial, trivial⟩]
  · intro env nameOf s h
    have hl := cycleLoop_all_unchanged env nameOf s.cache { s with changed := false } h
    rcases hl with ⟨ht, hc, hch, -⟩
    simp only [runCycle]
    rw [if_neg (by rw [hch]; exact Bool.false_ne_true)]
    exact ⟨ht, hc⟩

/-- C9 witness: the single-user state whose query returns its stored
ranks instantiates both halves of the no-change theorem. -/
theorem c9_witness :
    processUser (QueryResult.ok "n" 10 20) 1 10 20 sOne =
      ({ sOne with qec := 0, nec := 0 }, Ctl.next) ∧
    ((runCycle envOkSame sOne).trace = sOne.trace ∧
     (runCycle envOkSame sOne).cache = sOne.cache) :=
  ⟨c9_no_change_no_effect.1 "n" 1 10 20 sOne,
   c9_no_change_no_effect.2 envOkSame (fun _ => "n") sOne (by
     intro e he
     simp only [sOne, List.mem_singleton] at he
     subst he
     rfl)⟩

/-- Updating one user's cache entry does not change the lookup of a
different user. -/
lemma lookupCache_updateCache_ne (uid0 uid : Nat) (j p : Int) (h : uid0 ≠ uid) :
    ∀ c, lookupCache (updateCache c uid0 j p) uid = lookupCache c uid := by
  intro c
  induction c with
  | nil => rfl
  | cons e rest ih =>
    rcases e with ⟨i, a, b⟩
    simp only [updateCache, List.map_cons] at ih ⊢
    by_cases hi : i = uid0
    · subst hi
      rw [if_pos rfl]
      show lookupCache ((i, j, p) :: _) uid = lookupCache ((i, a, b) :: rest) uid
      simp only [lookupCache]
      rw [if_neg h, if_neg h]
      exact ih
    · rw [if_neg hi]
      simp only [lookupCache]
      by_cases hu : i = uid
      · rw [if_pos hu, if_pos hu]
      · rw [if_neg hu, if_neg hu]
        exact ih

/-- Processing one user never changes another user's stored entry. -/
lemma processUser_lookup_ne (res : QueryResult) (uid0 : Nat) (uj up : Int)
    (s : LoopState) (uid : Nat) (h : uid0 ≠ uid) :
    lookupCache (processUser res uid0 uj up s).1.cache uid =
      lookupCache s.cache uid := by
  cases res with
  | ok name qj qp =>
    simp only [processUser]
    split
    · rfl
    · exact lookupCache_updateCache_ne uid0 uid qj qp h s.cache
  | err m =>
    simp only [processUser]
    split
    · rfl
    · split
      · rfl
      · rfl

/-- Running the per-user loop over entries whose identifiers all differ
from `uid` preserves the stored entry of `uid`. -/
lemma cycleLoop_lookup_ne (env : Nat → QueryResult) (uid : Nat) :
    ∀ l s, (∀ e ∈ l, e.1 ≠ uid) →
      lookupCache (cycleLoop env l s).1.cache uid = lookupCache s.cache uid := by
  intro l
  induction l with
  | nil => intro s _; rfl
  | cons e rest ih =>
    intro s h
    rcases e with ⟨uid0, uj, up⟩
    have h0 : uid0 ≠ uid := h _ (List.mem_cons_self _ _)
    have hkeep := processUser_lookup_ne (env uid0) uid0 uj up s uid h0
    simp only [cycleLoop]
    rcases hp : processUser (env uid0) uid0 uj up s with ⟨s1, c⟩
    rw [hp] at hkeep
    cases c
    · exact (ih s1 (fun e hm => h e (List.mem_cons_of_mem _ hm))).trans hkeep
    · exact hkeep

/-- If the per-user loop does not break on a prefix, running it on the
whole list equals running the suffix from the prefix's final state. -/
lemma cycleLoop_append (env : Nat → QueryResult) :
    ∀ l1 l2 s, (cycleLoop env l1 s).2 = false →
      cycleLoop env (l1 ++ l2) s = cycleLoop env l2 (cycleLoop env l1 s).1 := by
  intro l1
  induction l1 with
  | nil => intro l2 s _; rfl
  | cons e rest ih =>
    intro l2 s h
    rcases e with ⟨uid0, uj, up⟩
    simp only [cycleLoop, List.cons_append] at h ⊢
    rcases hp : processUser (env uid0) uid0 uj up s with ⟨s1, c⟩
    rw [hp] at h
    cases c
    · exact ih l2 s1 h
    · simp at h

/-- A stored entry is found unchanged behind any prefix of entries with
different identifiers. -/
lemma lookupCache_append (uid : Nat) (uj up : Int) :
    ∀ l1 l2, (∀ e ∈ l1, e.1 ≠ uid) →
      lookupCache (l1 ++ (uid, uj, up) :: l2) uid = some (uj, up) := by
  intro l1
  induction l1 with
  | nil =>
    intro l2 _
    simp [lookupCache]
  | cons e rest ih =>
    intro l2 h
    rcases e with ⟨i, a, b⟩
    have hi : i ≠ uid := h _ (List.mem_cons_self _ _)
    simp only [List.cons_append, lookupCache]
    rw [if_neg hi]
    exact ih l2 (fun e hm => h e (List.mem_cons_of_mem _ hm))

/-- C2 counterexample: on a concrete changed query for user 1 the event
trace is `[store, send]` — the `pcr_cache` write of line 297 happens
strictly BEFORE the diff message is enqueued on line 305, refuting the
claim that the stored rank is updated only after the enqueue and never
before it. -/
theorem c2_counterexample :
    (processUser (QueryResult.ok "n" 9 20) 1 10 20 sOne).1.trace =
      [WEvent.store 1 9 20,
       WEvent.send "排名变动：n\n普通竞技场（ ↑ 1 ）：10 ➜ 9" true] := rfl

/-- C2 (amended): a user's stored rank pair is updated only after its
diff message has been computed from the previously stored values, but
immediately BEFORE, not after, the message is enqueued; and each rank
comparison reads the most recently stored value: processing any prefix
of users with different identifiers, without a break, preserves the
entry of `uid`, so the pair the loop then compares for `uid` is exactly
its currently stored value. -/
theorem c2_update_between_compute_and_enqueue :
    (∀ (name : String) (uid : Nat) (uj up qj qp : Int) (s : LoopState),
      ¬(uj = qj ∧ up = qp) →
      processUser (QueryResult.ok name qj qp) uid uj up s =
        ({ cache := updateCache s.cache uid qj qp
           qec := 0
           nec := 0
           changed := true
           trace := s.trace ++
             [WEvent.store uid qj qp,
              WEvent.send (changeMessage name uj up qj qp) true] },
         Ctl.next)) ∧
    (∀ (env : Nat → QueryResult) (l1 : List (Nat × Int × Int)) (uid : Nat)
       (uj up : Int) (l2 : List (Nat × Int × Int)) (s : LoopState),
      s.cache = l1 ++ (uid, uj, up) :: l2 →
      (∀ e ∈ l1, e.1 ≠ uid) →
      (cycleLoop env l1 s).2 = false →
      lookupCache (cycleLoop env l1 s).1.cache uid = some (uj, up) ∧
      cycleLoop env s.cache s =
        cycleLoop env ((uid, uj, up) :: l2) (cycleLoop env l1 s).1) := by
  constructor
  · intro name uid uj up qj qp s hne
    simp only [processUser]
    rw [if_neg hne]
  · intro env l1 uid uj up l2 s hcache hne hnostop
    constructor
    · rw [cycleLoop_lookup_ne env uid l1 s hne, hcache]
      exact lookupCache_append uid uj up l1 l2 hne
    · rw [hcache]
      exact cycleLoop_append env l1 ((uid, uj, up) :: l2) s hnostop

/-- C2 witness: concrete instantiation of both halves of the amended
update-order theorem. -/
theorem c2_witness :
    processUser (QueryResult.ok "n" 9 20) 1 10 20 sOne =
      ({ cache := updateCache sOne.cache 1 9 20
         qec := 0
         nec := 0
         changed := true
         trace := sOne.trace ++
           [WEvent.store 1 9 20,
            WEvent.send (changeMessage "n" 10 20 9 20) true] },
       Ctl.next) ∧
    (lookupCache (cycleLoop envErr [] sOne).1.cache 1 = some (10, 20) ∧
     cycleLoop envErr sOne.cache sOne =
       cycleLoop envErr ((1, 10, 20) :: []) (cycleLoop envErr [] sOne).1) :=
  ⟨c2_update_between_compute_and_enqueue.1 "n" 1 10 20 9 20 sOne (by decide),
   c2_update_between_compute_and_enqueue.2 envErr [] 1 10 20 [] sOne rfl
     (by simp) rfl⟩
